import Mathlib

/-!
Shallow embedding of the ZMOD DAC1411 driver (`src/ZmodDAC1411/zmoddac1411.cpp`)
and proofs about it.

Modelling conventions:
* Machine integers are `Nat` (for the unsigned `uint8_t`/`uint16_t`/`uint32_t`/
  `size_t` values) or `Int` (for signed values), with explicit `% 2^w`
  reductions at the points where the C code converts between widths.
* The C `float`/`double` arithmetic of the calibration and volt-conversion
  functions is modelled over `ℚ` (exact arithmetic); the C `(int32_t)` cast is
  truncation toward zero, modelled by `ratTrunc`.
* Register writes (`writeRegFld`) are modelled as a trace: a list of pairs of a
  symbolic register-field identifier and the written value.
* The base-layer class `ZMOD` (register access, DMA engine, calibration flash)
  is not under `src/`; its observable outcomes are inputs of the models
  (the base-layer load status for `readUserCalib`, the DMA start status and
  completion behaviour for `setData`).
-/

namespace ZmodDAC1411

/-- Modelled from the spec: the error taxonomy of the base-layer header (not
under `src/`). `ERR_SUCCESS` is the success status; `ERR_FAIL` is a distinct
failure code. The concrete numeric values are not used by any claim beyond
`ERR_SUCCESS` being the success status and `ERR_FAIL` being different from it. -/
def ERR_SUCCESS : Int := 0

/-- Modelled from the spec: the base-layer failure code returned by `setData`
on DMA-start failure. -/
def ERR_FAIL : Int := -1

/-- The `uint8_t` value actually returned by `setData` when it returns
`ERR_FAIL` (the `int` is converted to the `uint8_t` return type). -/
def ERR_FAIL_u8 : Nat := (ERR_FAIL % 256).toNat

/-- Symbolic register-field identifiers used by the driver
(`ZMODDAC1411_REGFLD_*` in `zmoddac1411.h`). -/
inductive RegField where
  | SC1HGMULTCOEF_VAL
  | SC1HGADDCOEF_VAL
  | SC1LGMULTCOEF_VAL
  | SC1LGADDCOEF_VAL
  | SC2HGMULTCOEF_VAL
  | SC2HGADDCOEF_VAL
  | SC2LGMULTCOEF_VAL
  | SC2LGADDCOEF_VAL
  | TRIG_SC1_HG_LG
  | TRIG_SC2_HG_LG
  | CR_DAC_EN
  | CR_OUT_ADDR_CNT_RST
  | CR_DIV_RATE
  deriving DecidableEq, Repr

/-- `ZMODDAC1411::arrangeChannelData` (zmoddac1411.cpp:82-86).
The `uint16_t data` parameter is modelled by reducing the argument mod `2^16`
at entry; `data &= 0x3FFF` masks to 14 bits; `channel ? data << 2 : data << 18`
tests the `uint8_t channel` against zero. -/
def arrangeChannelData (channel : Nat) (data : Nat) : Nat :=
  if channel ≠ 0 then ((data % 65536) &&& 0x3FFF) <<< 2
  else ((data % 65536) &&& 0x3FFF) <<< 18

/-- `ZMODDAC1411::arrangeSignedChannelData` (zmoddac1411.cpp:97-100).
The C code casts the `int16_t data` to `uint32_t` (reduction mod `2^32`,
non-negative via `Int.emod`) and calls `arrangeChannelData`, whose `uint16_t`
parameter further truncates mod `2^16`. -/
def arrangeSignedChannelData (channel : Nat) (data : Int) : Nat :=
  arrangeChannelData channel ((data % 4294967296).toNat)

/-- Truncation toward zero of a rational: the semantics of C's `(int32_t)`
cast applied to an in-range floating-point value. -/
def ratTrunc (q : ℚ) : Int := if 0 ≤ q then ⌊q⌋ else -⌊-q⌋

/-- `IDEAL_RANGE_DAC_HIGH` (zmoddac1411.cpp:247): 5.0 V. -/
def IDEAL_RANGE_DAC_HIGH : ℚ := 5

/-- `IDEAL_RANGE_DAC_LOW` (zmoddac1411.cpp:248): 1.25 V. -/
def IDEAL_RANGE_DAC_LOW : ℚ := 125 / 100

/-- `REAL_RANGE_DAC_HIGH` (zmoddac1411.cpp:249): 5.32 V. -/
def REAL_RANGE_DAC_HIGH : ℚ := 532 / 100

/-- `REAL_RANGE_DAC_LOW` (zmoddac1411.cpp:250): 1.33 V. -/
def REAL_RANGE_DAC_LOW : ℚ := 133 / 100

/-- `ZMODDAC1411::computeCoefMult` (zmoddac1411.cpp:258-264):
`fval = (gain ? IDEAL_HIGH/REAL_HIGH : IDEAL_LOW/REAL_LOW)/(1+cg)*(1<<16)`,
then `(int32_t)(fval + 0.5)`. -/
def computeCoefMult (cg : ℚ) (gain : Nat) : Int :=
  ratTrunc ((if gain ≠ 0 then IDEAL_RANGE_DAC_HIGH / REAL_RANGE_DAC_HIGH
             else IDEAL_RANGE_DAC_LOW / REAL_RANGE_DAC_LOW) / (1 + cg) * 65536 + 1 / 2)

/-- `ZMODDAC1411::computeCoefAdd` (zmoddac1411.cpp:273-278):
`fval = -ca * (1<<17) / ((gain ? REAL_HIGH : REAL_LOW) * (1 + cg))`,
then `(int32_t)(fval + 0.5)`. -/
def computeCoefAdd (ca cg : ℚ) (gain : Nat) : Int :=
  ratTrunc (-ca * 131072 /
    ((if gain ≠ 0 then REAL_RANGE_DAC_HIGH else REAL_RANGE_DAC_LOW) * (1 + cg)) + 1 / 2)

/-- The calibration record `CALIBECLYPSEDAC`: 8 floats indexed
`[channel 0:1][low/high gain 0:1][0 multiplicative : 1 additive]`. -/
structure CALIBECLYPSEDAC where
  cal : Fin 2 → Fin 2 → Fin 2 → ℚ

/-- The eight `writeRegFld` calls performed by `readUserCalib` on a successful
base-layer load (zmoddac1411.cpp:196-204), in program order. -/
def calibRegWrites (p : CALIBECLYPSEDAC) : List (RegField × Int) :=
  [ (RegField.SC1HGMULTCOEF_VAL, computeCoefMult (p.cal 0 1 0) 1),
    (RegField.SC1HGADDCOEF_VAL, computeCoefAdd (p.cal 0 1 0) (p.cal 0 1 1) 1),
    (RegField.SC1LGMULTCOEF_VAL, computeCoefMult (p.cal 0 0 0) 0),
    (RegField.SC1LGADDCOEF_VAL, computeCoefAdd (p.cal 0 0 0) (p.cal 0 0 1) 0),
    (RegField.SC2HGMULTCOEF_VAL, computeCoefMult (p.cal 1 1 0) 1),
    (RegField.SC2HGADDCOEF_VAL, computeCoefAdd (p.cal 1 1 0) (p.cal 1 1 1) 1),
    (RegField.SC2LGMULTCOEF_VAL, computeCoefMult (p.cal 1 0 0) 0),
    (RegField.SC2LGADDCOEF_VAL, computeCoefAdd (p.cal 1 0 0) (p.cal 1 0 1) 0) ]

/-- `ZMODDAC1411::readUserCalib` (zmoddac1411.cpp:182-208).
`baseStatus` is the status returned by the base-layer `ZMOD::readUserCalib`
and `p` the record it loaded (the base layer is outside `src/`). The result is
the returned status together with the trace of register-field writes. The
source checks `status == ERR_SUCCESS` to decide whether to program the eight
coefficient registers, and then returns `ERR_SUCCESS` unconditionally. -/
def readUserCalib (baseStatus : Int) (p : CALIBECLYPSEDAC) :
    Int × List (RegField × Int) :=
  if baseStatus = ERR_SUCCESS then (ERR_SUCCESS, calibRegWrites p)
  else (ERR_SUCCESS, [])

/-- `ZMODDAC1411::setGain` (zmoddac1411.cpp:215-225): writes the channel-2
gain-select field when `channel` is non-zero, the channel-1 field otherwise.
The result is the single register-field write performed. -/
def setGain (channel gain : Nat) : RegField × Nat :=
  if channel ≠ 0 then (RegField.TRIG_SC2_HG_LG, gain)
  else (RegField.TRIG_SC1_HG_LG, gain)

/-- `ZMODDAC1411::setCalibValues` (zmoddac1411.cpp:235-245): no-op when the
`calib` member is null, otherwise an in-place update of the record at
`[channel][gain]`, kind 0 receiving `valG` and kind 1 receiving `valA`.
Indices are `Fin 2`: the source indexes into `cal[2][2][2]` without a bound
check, so only in-range indices have defined behaviour. -/
def setCalibValues (channel gain : Fin 2) (valG valA : ℚ) :
    Option CALIBECLYPSEDAC → Option CALIBECLYPSEDAC
  | none => none
  | some p => some ⟨fun c g k =>
      if c = channel ∧ g = gain then (if k = 0 then valG else valA)
      else p.cal c g k⟩

/-- The busy-wait loop of `setData` (zmoddac1411.cpp:135), with fuel:
`complete i` is the result of the `i`-th `isDMATransferComplete()` poll.
Returns the index of the first poll that reported completion, or `none` if
the fuel ran out first (the source loop has no bound and would still be
spinning). -/
def waitLoop (complete : Nat → Bool) : Nat → Nat → Option Nat
  | 0, _ => none
  | fuel + 1, i => if complete i then some i else waitLoop complete fuel (i + 1)

/-- Observable outcome of one `setData` call: the byte count programmed by
`setTransferSize`, whether the completion wait loop was entered, the poll
index at which completion was observed (`none` if the loop was not entered or
is still spinning), and the returned `uint8_t` status (`none` if the call has
not returned within the fuel bound). -/
structure SetDataRun where
  sizeProgrammed : Nat
  enteredWaitLoop : Bool
  polls : Option Nat
  ret : Option Nat
  deriving DecidableEq, Repr

/-- `ZMODDAC1411::setData` (zmoddac1411.cpp:122-137). `startStatus` is the
`uint8_t` status returned by `startDMATransfer` and `complete` the sequence of
`isDMATransferComplete()` poll results (the DMA engine is outside `src/`).
The source first calls `setTransferSize(length * sizeof(uint32_t))` (`size_t`
arithmetic, mod `2^64`), then starts the transfer; a non-zero start status
returns `ERR_FAIL` immediately, otherwise the loop spins until a poll reports
completion and the zero start status is returned. -/
def setData (length : Nat) (startStatus : Nat) (complete : Nat → Bool)
    (fuel : Nat) : SetDataRun :=
  if startStatus ≠ 0 then
    ⟨(length * 4) % 2 ^ 64, false, none, some ERR_FAIL_u8⟩
  else
    match waitLoop complete fuel 0 with
    | some n => ⟨(length * 4) % 2 ^ 64, true, some n, some startStatus⟩
    | none => ⟨(length * 4) % 2 ^ 64, true, none, none⟩

/-- `vMax` selected by `ZMODDAC1411::getSignedRawFromVolt`
(zmoddac1411.cpp:289). -/
def vMaxOf (gain : Nat) : ℚ :=
  if gain ≠ 0 then IDEAL_RANGE_DAC_HIGH else IDEAL_RANGE_DAC_LOW

/-- `ZMODDAC1411::getSignedRawFromVolt` (zmoddac1411.cpp:287-309): clamp to
`(1<<13) - 1` at or above `vMax`, to `1<<13` below `-vMax`, otherwise
`(int32_t)(voltValue * (1<<13) / vMax)`. -/
def getSignedRawFromVolt (voltValue : ℚ) (gain : Nat) : Int :=
  if voltValue ≥ vMaxOf gain then 2 ^ 13 - 1
  else if voltValue < -vMaxOf gain then 2 ^ 13
  else ratTrunc (voltValue * 2 ^ 13 / vMaxOf gain)

/-- Per-gain ideal reference range, following the spec's words
(HIGH: ideal 5.0 V, LOW: ideal 1.25 V). -/
def idealRange (gain : Nat) : ℚ := if gain ≠ 0 then 5 else 125 / 100

/-- Per-gain real reference range, following the spec's words
(HIGH: real 5.32 V, LOW: real 1.33 V). -/
def realRange (gain : Nat) : ℚ := if gain ≠ 0 then 532 / 100 else 133 / 100

/-- The spec's rounding: add 0.5 then truncate. -/
def roundHalfUp (q : ℚ) : Int := ratTrunc (q + 1 / 2)

/-- The multiplicative-coefficient formula written from the spec's words:
`round( (idealRange(gain) / realRange(gain)) / (1 + cg) * 2^16 )`. -/
def computeCoefMult_fromSpec (cg : ℚ) (gain : Nat) : Int :=
  roundHalfUp (idealRange gain / realRange gain / (1 + cg) * 2 ^ 16)

/-- A 14-bit value shifted left by `s` has all its set bits in the window
`[s, s + 13]`. -/
lemma testBit_shiftLeft_window {d : Nat} (s i : Nat) (hd : d < 2 ^ 14)
    (h : (d <<< s).testBit i = true) : s ≤ i ∧ i ≤ s + 13 := by
  rw [Nat.testBit_shiftLeft, Bool.and_eq_true, decide_eq_true_eq] at h
  obtain ⟨h1, h2⟩ := h
  have h3 : 2 ^ (i - s) ≤ d := Nat.testBit_implies_ge h2
  have h4 : 2 ^ (i - s) < 2 ^ 14 := lt_of_le_of_lt h3 hd
  have h5 : i - s < 14 := (Nat.pow_lt_pow_iff_right (by norm_num)).mp h4
  omega

/-- The masked 16-bit data is below `2 ^ 14`. -/
lemma masked_lt (data : Nat) : (data % 65536) &&& 0x3FFF < 2 ^ 14 :=
  lt_of_le_of_lt Nat.and_le_right (by norm_num)

/-- C3: for every 16-bit `data`, `arrangeChannelData` masks to 14 bits and
shifts left by 18 for channel 0 and by 2 for channel 1; the channel-0 result
is a multiple of `2^18` below `2^32` and the channel-1 result a multiple of
`2^2` below `2^16`, i.e. all set bits lie in the corresponding 14-bit
window. -/
theorem arrangeChannelData_spec_c3 (data : Nat) (h : data < 65536) :
    arrangeChannelData 0 data = (data &&& 0x3FFF) <<< 18
    ∧ arrangeChannelData 1 data = (data &&& 0x3FFF) <<< 2
    ∧ 2 ^ 18 ∣ arrangeChannelData 0 data ∧ arrangeChannelData 0 data < 2 ^ 32
    ∧ 2 ^ 2 ∣ arrangeChannelData 1 data ∧ arrangeChannelData 1 data < 2 ^ 16 := by
  have hd : data % 65536 = data := Nat.mod_eq_of_lt h
  have hle : data &&& 0x3FFF ≤ 0x3FFF := Nat.and_le_right
  refine ⟨by simp [arrangeChannelData, hd], by simp [arrangeChannelData, hd], ?_, ?_, ?_, ?_⟩
  · simp only [arrangeChannelData, ne_eq, not_true_eq_false, if_false, Nat.shiftLeft_eq]
    exact dvd_mul_left _ _
  · simp only [arrangeChannelData, ne_eq, not_true_eq_false, if_false, Nat.shiftLeft_eq, hd]
    calc (data &&& 0x3FFF) * 2 ^ 18 ≤ 0x3FFF * 2 ^ 18 :=
          Nat.mul_le_mul_right _ hle
    _ < 2 ^ 32 := by norm_num
  · simp only [arrangeChannelData, ne_eq, one_ne_zero, not_false_eq_true, if_true,
      Nat.shiftLeft_eq]
    exact dvd_mul_left _ _
  · simp only [arrangeChannelData, ne_eq, one_ne_zero, not_false_eq_true, if_true,
      Nat.shiftLeft_eq, hd]
    calc (data &&& 0x3FFF) * 2 ^ 2 ≤ 0x3FFF * 2 ^ 2 :=
          Nat.mul_le_mul_right _ hle
    _ < 2 ^ 16 := by norm_num

/-- Witness for C3 at `data = 0x1234`. -/
theorem arrangeChannelData_spec_c3_witness :
    arrangeChannelData 0 0x1234 = (0x1234 &&& 0x3FFF) <<< 18
    ∧ arrangeChannelData 1 0x1234 = (0x1234 &&& 0x3FFF) <<< 2 :=
  ⟨(arrangeChannelData_spec_c3 0x1234 (by decide)).1,
   (arrangeChannelData_spec_c3 0x1234 (by decide)).2.1⟩

/-- C4 counterexample: the packed channel-0 word for `data = 1` is `2^18`,
whose set bit (bit 18) lies outside bits 17–4; so channel 0 does not occupy
bits 17–4 of the packed word. -/
theorem packedWord_c4_counterexample :
    arrangeChannelData 0 1 = 262144
    ∧ (arrangeChannelData 0 1).testBit 18 = true
    ∧ (arrangeChannelData 0 1) % 2 ^ 18 = 0 := by
  refine ⟨by decide, by decide, by decide⟩

/-- C4 amended: in every packed word, the channel-0 sample occupies bits
31–18 and the channel-1 sample occupies bits 15–2 (every set bit of the
channel contribution lies in that window). -/
theorem packedWord_windows_c4 (data : Nat) :
    (∀ i, (arrangeChannelData 0 data).testBit i = true → 18 ≤ i ∧ i ≤ 31)
    ∧ (∀ i, (arrangeChannelData 1 data).testBit i = true → 2 ≤ i ∧ i ≤ 15) := by
  constructor
  · intro i hi
    simp only [arrangeChannelData, ne_eq, not_true_eq_false, if_false] at hi
    have := testBit_shiftLeft_window 18 i (masked_lt data) hi
    omega
  · intro i hi
    simp only [arrangeChannelData, ne_eq, one_ne_zero, not_false_eq_true, if_true] at hi
    have := testBit_shiftLeft_window 2 i (masked_lt data) hi
    omega

/-- Witness for C4's amended theorem at `data = 0x3FFF`, bit 18 of the
channel-0 word and bit 2 of the channel-1 word. -/
theorem packedWord_windows_c4_witness :
    (18 ≤ 18 ∧ 18 ≤ 31) ∧ (2 ≤ 2 ∧ 2 ≤ 15) :=
  ⟨(packedWord_windows_c4 0x3FFF).1 18 (by decide),
   (packedWord_windows_c4 0x3FFF).2 2 (by decide)⟩

/-- C5: for any signed 16-bit `data`, `arrangeSignedChannelData` packs the
unsigned two's-complement bit pattern of `data` (its value mod `2^16`)
exactly as `arrangeChannelData` does; in particular `-1` packs as
`0x3FFF`. -/
theorem arrangeSignedChannelData_spec_c5 (channel : Nat) (data : Int)
    (h1 : -32768 ≤ data) (h2 : data < 32768) :
    arrangeSignedChannelData channel data
      = arrangeChannelData channel ((data % 65536).toNat)
    ∧ arrangeSignedChannelData channel (-1) = arrangeChannelData channel 0x3FFF := by
  have key : (data % 4294967296).toNat % 65536 = ((data % 65536).toNat) % 65536 := by
    omega
  constructor
  · by_cases hc : channel ≠ 0 <;>
      simp [arrangeSignedChannelData, arrangeChannelData, hc, key]
  · by_cases hc : channel ≠ 0 <;>
      simp [arrangeSignedChannelData, arrangeChannelData, hc] <;> decide

/-- Witness for C5 at `channel = 0`, `data = -1`. -/
theorem arrangeSignedChannelData_spec_c5_witness :
    arrangeSignedChannelData 0 (-1) = arrangeChannelData 0 ((-1 % 65536 : Int).toNat)
    ∧ arrangeSignedChannelData 0 (-1) = arrangeChannelData 0 0x3FFF :=
  ⟨(arrangeSignedChannelData_spec_c5 0 (-1) (by decide) (by decide)).1,
   (arrangeSignedChannelData_spec_c5 0 (-1) (by decide) (by decide)).2⟩

/-- C10: every non-zero channel value is treated exactly like channel 1:
`arrangeChannelData` packs with shift 2 and `setGain` writes the channel-2
gain-select field with the given gain. -/
theorem nonzero_channel_spec_c10 (channel : Nat) (h : channel ≠ 0) :
    (∀ data, arrangeChannelData channel data = arrangeChannelData 1 data)
    ∧ (∀ gain, setGain channel gain = setGain 1 gain)
    ∧ (∀ gain, setGain channel gain = (RegField.TRIG_SC2_HG_LG, gain)) := by
  refine ⟨fun data => ?_, fun gain => ?_, fun gain => ?_⟩ <;>
    simp [arrangeChannelData, setGain, h]

/-- Witness for C10 at `channel = 7`. -/
theorem nonzero_channel_spec_c10_witness :
    arrangeChannelData 7 12345 = arrangeChannelData 1 12345
    ∧ setGain 7 1 = setGain 1 1 :=
  ⟨(nonzero_channel_spec_c10 7 (by decide)).1 12345,
   (nonzero_channel_spec_c10 7 (by decide)).2.1 1⟩

/-- C1: `readUserCalib` returns `ERR_SUCCESS` at the top level for every
base-layer status, and the eight coefficient register writes are performed
exactly when the base-layer load returned `ERR_SUCCESS` (no writes
otherwise). -/
theorem readUserCalib_spec_c1 (baseStatus : Int) (p : CALIBECLYPSEDAC) :
    (readUserCalib baseStatus p).1 = ERR_SUCCESS
    ∧ (baseStatus = ERR_SUCCESS →
        (readUserCalib baseStatus p).2 = calibRegWrites p
          ∧ ((readUserCalib baseStatus p).2).length = 8)
    ∧ (baseStatus ≠ ERR_SUCCESS → (readUserCalib baseStatus p).2 = []) := by
  by_cases h : baseStatus = ERR_SUCCESS <;>
    simp [readUserCalib, h, calibRegWrites]

/-- Witness for C1: with a failing base status (`-2`) no register is written
yet `ERR_SUCCESS` is returned; with a successful base status the eight writes
are performed. -/
theorem readUserCalib_spec_c1_witness :
    (readUserCalib (-2) ⟨fun _ _ _ => 0⟩).2 = []
    ∧ (readUserCalib (-2) ⟨fun _ _ _ => 0⟩).1 = ERR_SUCCESS
    ∧ ((readUserCalib 0 ⟨fun _ _ _ => 0⟩).2).length = 8 :=
  ⟨(readUserCalib_spec_c1 (-2) ⟨fun _ _ _ => 0⟩).2.2 (by decide),
   (readUserCalib_spec_c1 (-2) ⟨fun _ _ _ => 0⟩).1,
   ((readUserCalib_spec_c1 0 ⟨fun _ _ _ => 0⟩).2.1 rfl).2⟩

/-- If some poll at index `n` within the fuel bound reports completion and no
earlier poll does, the busy-wait loop exits at exactly that poll. -/
lemma waitLoop_eq_some (complete : Nat → Bool) :
    ∀ fuel i n : Nat, i ≤ n → n < i + fuel → complete n = true →
      (∀ m, i ≤ m → m < n → complete m = false) →
      waitLoop complete fuel i = some n := by
  intro fuel
  induction fuel with
  | zero => intro i n h1 h2 _ _; omega
  | succ fuel ih =>
    intro i n h1 h2 hc hmin
    simp only [waitLoop]
    by_cases hi : complete i
    · have hin : i = n := by
        by_contra hne
        have hlt : i < n := lt_of_le_of_ne h1 hne
        have := hmin i le_rfl hlt
        rw [hi] at this
        exact Bool.true_eq_false.mp this
      subst hin
      simp [hi]
    · have hne : i ≠ n := fun e => hi (e ▸ hc)
      simp only [hi, if_false]
      exact ih (i + 1) n (by omega) (by omega) hc
        (fun m hm1 hm2 => hmin m (by omega) hm2)

/-- C2: `setData` always programs the transfer size as `length * 4` bytes
(`size_t` arithmetic); on a non-zero DMA start status it returns `ERR_FAIL`
immediately without entering the completion wait loop; on a zero start status
it polls until the first completion report and returns the success status
(the zero `startDMATransfer` status). -/
theorem setData_spec_c2 (length startStatus fuel : Nat) (complete : Nat → Bool) :
    (setData length startStatus complete fuel).sizeProgrammed = (length * 4) % 2 ^ 64
    ∧ (startStatus ≠ 0 →
        setData length startStatus complete fuel
          = ⟨(length * 4) % 2 ^ 64, false, none, some ERR_FAIL_u8⟩)
    ∧ (startStatus = 0 →
        ∀ n, n < fuel → complete n = true → (∀ m, m < n → complete m = false) →
          setData length startStatus complete fuel
            = ⟨(length * 4) % 2 ^ 64, true, some n, some ERR_SUCCESS.toNat⟩) := by
  refine ⟨?_, ?_, ?_⟩
  · by_cases h : startStatus ≠ 0
    · simp [setData, h]
    · rcases hw : waitLoop complete fuel 0 with _ | n <;> simp [setData, h, hw]
  · intro h
    simp [setData, h]
  · intro h n hn hc hmin
    have hw : waitLoop complete fuel 0 = some n :=
      waitLoop_eq_some complete fuel 0 n (Nat.zero_le n) (by omega) hc
        (fun m _ hm => hmin m hm)
    simp [setData, h, hw, ERR_SUCCESS]

/-- Witness for C2: a failing start (status 5) returns `ERR_FAIL` (255 as
`uint8_t`) without entering the wait loop; a zero start status with first
completion at poll 2 returns 0 after polling to index 2; the programmed size
for `length = 3` is 12 bytes. -/
theorem setData_spec_c2_witness :
    setData 3 5 (fun _ => false) 0
      = ⟨12, false, none, some 255⟩
    ∧ setData 3 0 (fun n => n == 2) 10
      = ⟨12, true, some 2, some 0⟩ := by
  refine ⟨?_, ?_⟩
  · have := (setData_spec_c2 3 5 0 (fun _ => false)).2.1 (by decide)
    simpa using this
  · have := (setData_spec_c2 3 0 10 (fun n => n == 2)).2.2 rfl 2 (by decide)
      (by decide) (by decide)
    simpa using this

/-- The selected range limit is positive for every gain. -/
lemma vMaxOf_pos (gain : Nat) : 0 < vMaxOf gain := by
  unfold vMaxOf IDEAL_RANGE_DAC_HIGH IDEAL_RANGE_DAC_LOW
  split <;> norm_num

/-- C6: `getSignedRawFromVolt` clamps out-of-range inputs: `vMax` is 5 for
gain 1 and 1.25 for gain 0; at or above `vMax` the result is `2^13 - 1 =
8191`, below `-vMax` it is `2^13 = 8192`; in particular `(5.0, 1) ↦ 8191`,
`(-10.0, 1) ↦ 8192` and `(0.0, 0) ↦ 0`. -/
theorem getSignedRawFromVolt_spec_c6 (v : ℚ) (gain : Nat) :
    vMaxOf 1 = 5 ∧ vMaxOf 0 = 125 / 100
    ∧ (v ≥ vMaxOf gain → getSignedRawFromVolt v gain = 8191)
    ∧ (v < -vMaxOf gain → getSignedRawFromVolt v gain = 8192)
    ∧ getSignedRawFromVolt 5 1 = 8191
    ∧ getSignedRawFromVolt (-10) 1 = 8192
    ∧ getSignedRawFromVolt 0 0 = 0 := by
  refine ⟨by norm_num [vMaxOf, IDEAL_RANGE_DAC_HIGH],
          by norm_num [vMaxOf, IDEAL_RANGE_DAC_LOW], ?_, ?_, ?_, ?_, ?_⟩
  · intro hw
    rw [getSignedRawFromVolt, if_pos hw]
    norm_num
  · intro hw
    have hpos := vMaxOf_pos gain
    have hnot : ¬ (v ≥ vMaxOf gain) := by push_neg; linarith
    rw [getSignedRawFromVolt, if_neg hnot, if_pos hw]
    norm_num
  · norm_num [getSignedRawFromVolt, vMaxOf, IDEAL_RANGE_DAC_HIGH]
  · norm_num [getSignedRawFromVolt, vMaxOf, IDEAL_RANGE_DAC_HIGH]
  · norm_num [getSignedRawFromVolt, vMaxOf, IDEAL_RANGE_DAC_LOW, ratTrunc]

/-- Witness for C6 at `(5, 1)` and `(-10, 1)`. -/
theorem getSignedRawFromVolt_spec_c6_witness :
    (5 : ℚ) ≥ vMaxOf 1 ∧ getSignedRawFromVolt 5 1 = 8191
    ∧ (-10 : ℚ) < -vMaxOf 1 ∧ getSignedRawFromVolt (-10) 1 = 8192 :=
  ⟨by norm_num [vMaxOf, IDEAL_RANGE_DAC_HIGH],
   (getSignedRawFromVolt_spec_c6 5 1).2.2.1
     (by norm_num [vMaxOf, IDEAL_RANGE_DAC_HIGH]),
   by norm_num [vMaxOf, IDEAL_RANGE_DAC_HIGH],
   (getSignedRawFromVolt_spec_c6 (-10) 1).2.2.2.1
     (by norm_num [vMaxOf, IDEAL_RANGE_DAC_HIGH])⟩

/-- C7 counterexample: at the in-range input `voltValue = -1/2`, `gain = 0`
(so `vMax = 1.25` and `-vMax ≤ -1/2 < vMax`), the code truncates
`-1/2 * 2^13 / vMax = -3276.8` toward zero to `-3276`, while the floor is
`-3277`; so the result is not `floor(voltValue * 2^13 / vMax)`. -/
theorem getSignedRawFromVolt_c7_counterexample :
    getSignedRawFromVolt (-1 / 2) 0 = -3276
    ∧ ⌊((-1 / 2 : ℚ) * 2 ^ 13 / vMaxOf 0)⌋ = -3277
    ∧ getSignedRawFromVolt (-1 / 2) 0 ≠ ⌊((-1 / 2 : ℚ) * 2 ^ 13 / vMaxOf 0)⌋ := by
  refine ⟨?_, ?_, ?_⟩
  · norm_num [getSignedRawFromVolt, vMaxOf, IDEAL_RANGE_DAC_LOW, ratTrunc]
  · norm_num [vMaxOf, IDEAL_RANGE_DAC_LOW]
  · norm_num [getSignedRawFromVolt, vMaxOf, IDEAL_RANGE_DAC_LOW, ratTrunc]

/-- C7 amended: for in-range inputs the result is the truncation toward zero
of `voltValue * 2^13 / vMax` (the C `(int32_t)` cast); this coincides with
the floor exactly on non-negative inputs. -/
theorem getSignedRawFromVolt_inrange_c7 (v : ℚ) (gain : Nat)
    (h1 : -vMaxOf gain ≤ v) (h2 : v < vMaxOf gain) :
    getSignedRawFromVolt v gain = ratTrunc (v * 2 ^ 13 / vMaxOf gain)
    ∧ (0 ≤ v → getSignedRawFromVolt v gain = ⌊v * 2 ^ 13 / vMaxOf gain⌋) := by
  have hpos := vMaxOf_pos gain
  have hnot1 : ¬ (v ≥ vMaxOf gain) := by push_neg; linarith
  have hnot2 : ¬ (v < -vMaxOf gain) := by push_neg; linarith
  have hmain : getSignedRawFromVolt v gain = ratTrunc (v * 2 ^ 13 / vMaxOf gain) := by
    rw [getSignedRawFromVolt, if_neg hnot1, if_neg hnot2]
  refine ⟨hmain, fun hv => ?_⟩
  have hq : 0 ≤ v * 2 ^ 13 / vMaxOf gain := by positivity
  rw [hmain, ratTrunc, if_pos hq]

/-- Witness for C7's amended theorem at `(1/2, 0)`:
`1/2 * 8192 / 1.25 = 3276.8` truncates to `3276`. -/
theorem getSignedRawFromVolt_inrange_c7_witness :
    -vMaxOf 0 ≤ (1 / 2 : ℚ) ∧ (1 / 2 : ℚ) < vMaxOf 0
    ∧ getSignedRawFromVolt (1 / 2) 0 = ratTrunc ((1 / 2 : ℚ) * 2 ^ 13 / vMaxOf 0)
    ∧ getSignedRawFromVolt (1 / 2) 0 = 3276 :=
  ⟨by norm_num [vMaxOf, IDEAL_RANGE_DAC_LOW],
   by norm_num [vMaxOf, IDEAL_RANGE_DAC_LOW],
   (getSignedRawFromVolt_inrange_c7 (1 / 2) 0
      (by norm_num [vMaxOf, IDEAL_RANGE_DAC_LOW])
      (by norm_num [vMaxOf, IDEAL_RANGE_DAC_LOW])).1,
   by norm_num [getSignedRawFromVolt, vMaxOf, IDEAL_RANGE_DAC_LOW, ratTrunc]⟩

/-- C8: `computeCoefMult` agrees with the spec's formula
`round((idealRange(gain)/realRange(gain))/(1+cg) * 2^16)` (rounding = add 0.5
then truncate) for every stored coefficient `cg` and gain, and
`computeCoefMult 0 1 = round((5.0/5.32) * 65536) = 61594`. -/
theorem computeCoefMult_spec_c8 (cg : ℚ) (gain : Nat) :
    computeCoefMult cg gain = computeCoefMult_fromSpec cg gain
    ∧ computeCoefMult 0 1
        = roundHalfUp (IDEAL_RANGE_DAC_HIGH / REAL_RANGE_DAC_HIGH * 65536)
    ∧ computeCoefMult 0 1 = 61594 := by
  refine ⟨?_, ?_, ?_⟩
  · by_cases h : gain = 0 <;>
      simp only [computeCoefMult, computeCoefMult_fromSpec, roundHalfUp,
        idealRange, realRange, IDEAL_RANGE_DAC_HIGH, IDEAL_RANGE_DAC_LOW,
        REAL_RANGE_DAC_HIGH, REAL_RANGE_DAC_LOW, h, ne_eq,
        not_true_eq_false, not_false_eq_true, if_true, if_false] <;>
      rfl
  · simp only [computeCoefMult, roundHalfUp, ne_eq, one_ne_zero,
      not_false_eq_true, if_true]
    first
    | rfl
    | (congr 1; ring)
  · norm_num [computeCoefMult, ratTrunc, IDEAL_RANGE_DAC_HIGH, REAL_RANGE_DAC_HIGH]

/-- C9: `setCalibValues` is a no-op on an unloaded (null) calibration record;
on a loaded record it stores `valG` at kind 0 and `valA` at kind 1 of entry
`[channel][gain]`, and both values read back unchanged from the in-memory
record. -/
theorem setCalibValues_spec_c9 (channel gain : Fin 2) (vG vA : ℚ)
    (p : CALIBECLYPSEDAC) :
    setCalibValues channel gain vG vA none = none
    ∧ ∃ q, setCalibValues channel gain vG vA (some p) = some q
        ∧ q.cal channel gain 0 = vG ∧ q.cal channel gain 1 = vA := by
  refine ⟨rfl, ⟨_, rfl, ?_, ?_⟩⟩ <;> simp [setCalibValues]

end ZmodDAC1411
